import Mathlib

/-!
Verification of the Ganeti RPC dispatch engine and tag logical units.

The repository ships two source files: the unit tests of the RPC layer
(`src/test/py/ganeti.rpc_unittest.py`) and the tag logical units
(`src/lib/cmdlib/tags.py`).  The RPC engine itself (`lib/rpc.py`,
`lib/backend.py`) is not part of the sources, so its data model and
operations are modelled from the design specification, with the unit
tests pinning the behaviour at concrete inputs.  The tag logical units
are translated directly from `src/lib/cmdlib/tags.py`.
-/

set_option maxRecDepth 4000

namespace Ganeti

/-! ## Wire values and HTTP transport model -/

/-- Modelled from the spec: decoded JSON-like wire values as produced by the
missing `serializer.LoadJson` (`lib/serializer.py` is not under the sources).
Objects are not needed by the dispatch envelope, so only scalars and arrays
are represented. -/
inductive WireValue where
  | null : WireValue
  | bool (b : Bool) : WireValue
  | num (n : Int) : WireValue
  | str (s : String) : WireValue
  | arr (xs : List WireValue) : WireValue
deriving Repr

/-- Modelled from the spec: one request handed to the injected transport
primitive, carrying `host, port, path, post_data, read_timeout`
(the `http.client.HttpClientRequest` class is not under the sources). -/
structure HttpRequest where
  host : String
  port : Nat
  path : String
  postData : String
  readTimeout : Nat
deriving Repr, DecidableEq

/-- Modelled from the spec: the transport primitive populates on each request
either `success=true` with a status code and a response body, or
`success=false` with an error string.  A body that fails to decode is
modelled as `none`. -/
inductive HttpResponse where
  | success (status : Nat) (body : Option WireValue) : HttpResponse
  | failure (error : String) : HttpResponse

/-! ## Per-node results -/

/-- Modelled from the spec: normalized outcome of one call to one node
(`rpc.RpcResult`, `lib/rpc.py` is not under the sources): display name,
call name, offline classification, `fail_msg` (empty string meaning
success) and decoded payload (`WireValue.null` for empty). -/
structure PerNodeResult where
  node : String
  call : String
  offline : Bool
  failMsg : String
  payload : WireValue

/-- Modelled from the spec: errors raised by the layer; a prerequisite-style
error carries an optional error code, an execution-style error carries a
message (`ganeti.errors` is not under the sources). -/
inductive GanetiError where
  | opPrereqError (msg : String) (ecode : Option String) : GanetiError
  | opExecError (msg : String) : GanetiError
  | tagError (msg : String) : GanetiError
deriving Repr, DecidableEq

/-- Modelled from the spec: the message of a raised error combines the
caller-supplied message with the stored `fail_msg`; with no caller
message the `fail_msg` alone is used. -/
def raiseMsg (message : Option String) (failMsg : String) : String :=
  match message with
  | some m => m ++ ": " ++ failMsg
  | none => failMsg

/-- Modelled from the spec: `RpcResult.Raise(msg, prereq, ecode)` is a no-op
when `fail_msg` is empty; otherwise it raises a prerequisite-style error
(carrying `ecode`) when `prereq` is true, else an execution-style error
carrying the message and the `fail_msg`.  Raising is modelled by returning
`some` error instead of `none`. -/
def PerNodeResult.Raise (r : PerNodeResult) (message : Option String)
    (prereq : Bool) (ecode : Option String) : Option GanetiError :=
  if r.failMsg = "" then
    none
  else
    let msg := raiseMsg message r.failMsg
    if prereq then
      some (GanetiError.opPrereqError msg ecode)
    else
      some (GanetiError.opExecError msg)

/-! ## Response classification -/

/-- Modelled from the spec: Python truthiness of a decoded wire value, used
when the remote side supplies an empty failure message. -/
def WireValue.truthy : WireValue → Bool
  | .null => false
  | .bool b => b
  | .num n => n != 0
  | .str s => s ≠ ""
  | .arr xs => ¬ xs.isEmpty

/-- Modelled from the spec: rendering of a decoded wire value into a failure
message string. -/
def WireValue.render : WireValue → String
  | .null => "None"
  | .bool b => toString b
  | .num n => toString n
  | .str s => s
  | .arr xs =>
    "[" ++ String.intercalate ", " (xs.attach.map (fun x => render x.1)) ++ "]"
termination_by v => sizeOf v
decreasing_by
  have := List.sizeOf_lt_of_mem x.2
  simp only [WireValue.arr.sizeOf_spec]
  omega

/-- Modelled from the spec: the generic message used when the remote side
reported failure without supplying error information. -/
def genericFailMsg : String := "No error information"

/-- Modelled from the spec: failure message extracted from the value of a
decoded `(ok=false, value)` envelope: the value itself, or a generic
message when absent/empty. -/
def ensureErr (v : WireValue) : String :=
  if v.truthy then v.render else genericFailMsg

/-- Modelled from the spec: the fixed message classifying a response body
that fails to decode or decodes to something other than the required
two-element `(ok, value)` envelope. -/
def invalidResponseMsg : String := "RPC layer error: invalid response"

/-- Modelled from the spec: whether a decoded response body has the required
envelope shape, a two-element sequence `(ok : bool, value)`. -/
def validEnvelope : Option WireValue → Bool
  | some (.arr [.bool _, _]) => true
  | _ => false

/-- Modelled from the spec: message for an HTTP-level non-2xx status. -/
def httpErrorMsg (status : Nat) (body : Option WireValue) : String :=
  "Error " ++ toString status ++ ": " ++
    (match body with
     | some v => v.render
     | none => "(no error information)")

/-- Modelled from the spec: message for a connection-level transport
failure. -/
def transportErrorMsg (err : String) : String :=
  "Error while executing backend function: " ++ err

/-- Modelled from the spec: decoding of the wire envelope by the RPC
Processor.  A successful transport response with a 2xx status must decode
to a two-element `(ok : bool, value)` sequence: `ok=true` makes the value
the payload, `ok=false` makes the value (or a generic message) the
`fail_msg`; anything else is a protocol failure with the fixed invalid
response message.  Non-2xx statuses and transport failures yield a
`fail_msg` from the error information. -/
def classifyResponse (name call : String) : HttpResponse → PerNodeResult
  | .failure err =>
    { node := name, call := call, offline := false,
      failMsg := transportErrorMsg err, payload := .null }
  | .success status body =>
    if 200 ≤ status ∧ status < 300 then
      match body with
      | some (.arr [.bool true, v]) =>
        { node := name, call := call, offline := false,
          failMsg := "", payload := v }
      | some (.arr [.bool false, v]) =>
        { node := name, call := call, offline := false,
          failMsg := ensureErr v, payload := .null }
      | _ =>
        { node := name, call := call, offline := false,
          failMsg := invalidResponseMsg, payload := .null }
    else
      { node := name, call := call, offline := false,
        failMsg := httpErrorMsg status body, payload := .null }

/-! ## Address resolution and dispatch -/

/-- Modelled from the spec: a resolved address triple
`(display_name, address, identifier)`; a node known to be offline carries
the distinguished OFFLINE sentinel instead of a real address, modelled as
`none`. -/
structure ResolvedAddress where
  name : String
  address : Option String
  id : String

/-- Modelled from the spec: the fixed-list resolution strategy
(`rpc._StaticResolver`): the i-th node id is paired with the i-th
configured address and serves as its own display name.  The configured
list may hold the OFFLINE sentinel (`none`) in place of an address, as
the unit tests do. -/
def staticResolver (addresses : List (Option String)) (nodeIds : List String) :
    List ResolvedAddress :=
  List.zipWith (fun n a => ⟨n, a, n⟩) nodeIds addresses

/-- Modelled from the spec: the message stored for a node resolved as
offline, so the result always carries a non-empty `fail_msg`. -/
def offlineNodeMsg : String := "Node is marked offline"

/-- Modelled from the spec: the request built for one online node: host is
the resolved address, path is derived from the call name, body looked up
per node id, with the dispatch read timeout. -/
def mkRequest (addr : String) (port : Nat) (call : String)
    (bodyData : String) (timeout : Nat) : HttpRequest :=
  { host := addr, port := port, path := "/" ++ call,
    postData := bodyData, readTimeout := timeout }

/-- Modelled from the spec: processing of a single resolved node by the RPC
Processor (`rpc._RpcProcessor`).  A node resolved as OFFLINE never
generates a request: its result is immediately offline with a non-empty
`fail_msg`.  Otherwise one request is built and submitted to the
transport, and the response is classified.  The second component lists
the requests submitted to the transport for this node. -/
def dispatchOne (port : Nat) (call : String) (body : String → String)
    (timeout : Nat) (transport : HttpRequest → HttpResponse)
    (ra : ResolvedAddress) : PerNodeResult × List HttpRequest :=
  match ra.address with
  | none =>
    ({ node := ra.name, call := call, offline := true,
       failMsg := offlineNodeMsg, payload := .null }, [])
  | some addr =>
    let req := mkRequest addr port call (body ra.id) timeout
    (classifyResponse ra.name call (transport req), [req])

/-- Modelled from the spec: the RPC Processor's dispatch: resolve the node
ids, process every resolved node, and key the resulting map by the input
node identifier. -/
def rpcProcess (resolver : List String → List ResolvedAddress) (port : Nat)
    (nodeIds : List String) (call : String) (body : String → String)
    (timeout : Nat) (transport : HttpRequest → HttpResponse) :
    List (String × PerNodeResult) :=
  (resolver nodeIds).map
    (fun ra => (ra.id, (dispatchOne port call body timeout transport ra).1))

/-! ## Compression codec -/

/-- Modelled from the spec: the "no encoding" marker
(`constants.RPC_ENCODING_NONE`, `lib/constants.py` is not under the
sources). -/
def RPC_ENCODING_NONE : Nat := 0

/-- Modelled from the spec: the marker tagging compressed, base-encoded
payloads (`constants.RPC_ENCODING_ZLIB_BASE64`). -/
def RPC_ENCODING_ZLIB_BASE64 : Nat := 1

/-- Modelled from the spec: the fixed size threshold below which payloads
pass through unmodified; the unit tests pin 512-byte payloads as already
at/above the threshold. -/
def compressionThreshold : Nat := 512

/-- Modelled from the spec: the byte values of the base64 alphabet used for
base-encoding compressed payloads. -/
def b64Alphabet : List Nat :=
  ("ABCDEFGHIJKLMNOPQRSTUVWXYZabcdefghijklmnopqrstuvwxyz0123456789+/".toList).map
    Char.toNat

/-- Modelled from the spec: the byte value of the base64 padding character. -/
def b64Pad : Nat := 61

/-- Modelled from the spec: one output byte of the base-encoding, from a
six-bit group value. -/
def b64Byte (s : Nat) : Nat := b64Alphabet.getD s 65

/-- Modelled from the spec: inverse lookup of one base64 alphabet byte. -/
def b64Value (c : Nat) : Option Nat := b64Alphabet.indexOf? c

/-- Modelled from the spec: base64 encoding of a byte sequence; three input
bytes become four output bytes, with `=` padding closing a final group of
one or two bytes. -/
def b64encode : List Nat → List Nat
  | [] => []
  | [a] => [b64Byte (a / 4), b64Byte (a % 4 * 16), b64Pad, b64Pad]
  | [a, b] =>
    [b64Byte (a / 4), b64Byte (a % 4 * 16 + b / 16), b64Byte (b % 16 * 4),
     b64Pad]
  | a :: b :: c :: rest =>
    b64Byte (a / 4) :: b64Byte (a % 4 * 16 + b / 16) ::
      b64Byte (b % 16 * 4 + c / 64) :: b64Byte (c % 64) :: b64encode rest

/-- Modelled from the spec: base64 decoding, rejecting malformed data
(wrong group length, bytes outside the alphabet, or misplaced padding)
as a hard failure. -/
def b64decode : List Nat → Option (List Nat)
  | [] => some []
  | c0 :: c1 :: c2 :: c3 :: rest =>
    match b64Value c0, b64Value c1 with
    | some s0, some s1 =>
      if c2 = b64Pad ∧ c3 = b64Pad then
        if rest.isEmpty then some [s0 * 4 + s1 / 16] else none
      else if c3 = b64Pad then
        match b64Value c2 with
        | some s2 =>
          if rest.isEmpty then
            some [s0 * 4 + s1 / 16, s1 % 16 * 16 + s2 / 4]
          else none
        | none => none
      else
        match b64Value c2, b64Value c3 with
        | some s2, some s3 =>
          (b64decode rest).map
            (fun ds => (s0 * 4 + s1 / 16) :: (s1 % 16 * 16 + s2 / 4) ::
              (s2 % 4 * 64 + s3) :: ds)
        | _, _ => none
    | _, _ => none
  | _ => none

/-- Modelled from the spec: the compression applied to payloads at or above
the size threshold.  The concrete zlib transform lives in code that is not
under the sources; the spec constrains it only to be inverted exactly by
decompression, so it is modelled as the identity transform on bytes. -/
def zlibCompress (data : List Nat) : List Nat := data

/-- Modelled from the spec: inverse of `zlibCompress`; malformed input would
be a hard failure, modelled by the `Option`. -/
def zlibDecompress (data : List Nat) : Option (List Nat) := some data

/-- Modelled from the spec: `rpc._Compress`: payloads below the size
threshold pass through unmodified tagged with the "no encoding" marker;
at or above the threshold the payload is compressed and base-encoded,
tagged with the distinct zlib/base64 marker. -/
def rpcCompress (data : List Nat) : Nat × List Nat :=
  if data.length < compressionThreshold then
    (RPC_ENCODING_NONE, data)
  else
    (RPC_ENCODING_ZLIB_BASE64, b64encode (zlibCompress data))

/-- Modelled from the spec: `backend._Decompress`: the inverse transform,
rejecting unknown encoding markers and malformed encoded data as hard
failures instead of silently returning corrupted data. -/
def rpcDecompress (pair : Nat × List Nat) : Except String (List Nat) :=
  if pair.1 = RPC_ENCODING_NONE then
    .ok pair.2
  else if pair.1 = RPC_ENCODING_ZLIB_BASE64 then
    match b64decode pair.2 with
    | some bytes =>
      match zlibDecompress bytes with
      | some d => .ok d
      | none => .error "invalid zlib data"
    | none => .error "invalid base64 data"
  else
    .error "Unknown data encoding"

/-! ## Legacy node-info merger -/

/-- Modelled from the spec: storage type constant for file-backed storage
(`constants.ST_FILE`). -/
def ST_FILE : String := "file"

/-- Modelled from the spec: storage type constant for LVM volume groups
(`constants.ST_LVM_VG`). -/
def ST_LVM_VG : String := "lvm-vg"

/-- Modelled from the spec: storage type constant for LVM physical volumes
(`constants.ST_LVM_PV`). -/
def ST_LVM_PV : String := "lvm-pv"

/-- Modelled from the spec: one entry of a per-backend storage report:
`{name, type, storage_free, storage_size}`. -/
structure StorageUnit where
  name : String
  stype : String
  storageFree : Nat
  storageSize : Nat
deriving Repr, DecidableEq

/-- Modelled from the spec: the flat legacy record fields touched by the
default-storage merger; a `none` field is absent from the record. -/
structure LegacyNodeInfo where
  name : Option String
  storageFree : Option Nat
  storageSize : Option Nat
deriving Repr, DecidableEq

/-- Modelled from the spec: `rpc._AddDefaultStorageInfoToLegacyNodeInfo`
(`lib/rpc.py` is not under the sources; behaviour pinned by the unit
tests under `src/test`).  When LVM is present, the first LVM volume-group
entry is authoritative and overrides any previously set default, and its
absence is a hard error.  Otherwise the first entry supplies the default,
unless there is no entry besides at most a lone LVM physical-volume
(spindle) entry, in which case no default is set. -/
def addDefaultStorageInfo (result : LegacyNodeInfo)
    (spaceInfo : List StorageUnit) (hasLvm : Bool) :
    Except GanetiError LegacyNodeInfo :=
  let noDefaults :=
    spaceInfo.length < 1 ∨
      ((spaceInfo.head?.map StorageUnit.stype) = some ST_LVM_PV ∧
        spaceInfo.length = 1)
  let defaultSpaceInfo : Except GanetiError (Option StorageUnit) :=
    if hasLvm then
      match spaceInfo.filter (fun s => s.stype = ST_LVM_VG) with
      | v :: _ => .ok (some v)
      | [] =>
        .error (.opExecError "LVM storage info requested, but not available.")
    else
      if noDefaults then .ok none else .ok spaceInfo.head?
  match defaultSpaceInfo with
  | .error e => .error e
  | .ok none => .ok result
  | .ok (some d) =>
    .ok { name := some d.name, storageFree := some d.storageFree,
          storageSize := some d.storageSize }

/-! ## Tag logical units (from src/lib/cmdlib/tags.py) -/

/-- The kinds of taggable objects (`constants.TAG_*`). -/
inductive TagKind where
  | cluster
  | node
  | inst
  | nodegroup
  | network
deriving Repr, DecidableEq

/-- Cluster configuration as seen by the tag logical units: the cluster's
own tags and, per object kind, an association list from object name to
that object's tags. -/
structure ConfigData where
  clusterTags : List String
  nodes : List (String × List String)
  instances : List (String × List String)
  nodegroups : List (String × List String)
  networks : List (String × List String)
deriving Repr, DecidableEq

/-- Lookup of one named object's tags in an association list; `none` when
the object is unknown to the configuration. -/
def lookupTags (objs : List (String × List String)) (name : String) :
    Option (List String) :=
  (objs.find? (fun o => o.1 = name)).map Prod.snd

/-- Error code constant `errors.ECODE_NOENT`. -/
def ECODE_NOENT : String := "not_found"

/-- Error code constant `errors.ECODE_INVAL`. -/
def ECODE_INVAL : String := "wrong_input"

/-- `TagsLU.CheckPrereq`: select the target object's tags by kind and name,
failing with a prerequisite error when the named object is unknown
(raised by the expansion/lookup helpers of the config store). -/
def getTargetTags (cfg : ConfigData) (kind : TagKind) (name : String) :
    Except GanetiError (List String) :=
  match kind with
  | .cluster => .ok cfg.clusterTags
  | .node =>
    match lookupTags cfg.nodes name with
    | some t => .ok t
    | none =>
      .error (.opPrereqError ("Node '" ++ name ++ "' is unknown.")
        (some ECODE_NOENT))
  | .inst =>
    match lookupTags cfg.instances name with
    | some t => .ok t
    | none =>
      .error (.opPrereqError ("Instance '" ++ name ++ "' not known")
        (some ECODE_NOENT))
  | .nodegroup =>
    match lookupTags cfg.nodegroups name with
    | some t => .ok t
    | none =>
      .error (.opPrereqError ("Node group '" ++ name ++ "' not found")
        (some ECODE_NOENT))
  | .network =>
    match lookupTags cfg.networks name with
    | some t => .ok t
    | none =>
      .error (.opPrereqError ("Network '" ++ name ++ "' not found")
        (some ECODE_NOENT))

/-- Store back the target object's tags by kind and name, as performed by
`self.cfg.Update(self.target, feedback_fn)` after a mutation. -/
def setTargetTags (cfg : ConfigData) (kind : TagKind) (name : String)
    (tags : List String) : ConfigData :=
  let upd := fun (objs : List (String × List String)) =>
    objs.map (fun o => if o.1 = name then (o.1, tags) else o)
  match kind with
  | .cluster => { cfg with clusterTags := tags }
  | .node => { cfg with nodes := upd cfg.nodes }
  | .inst => { cfg with instances := upd cfg.instances }
  | .nodegroup => { cfg with nodegroups := upd cfg.nodegroups }
  | .network => { cfg with networks := upd cfg.networks }

/-- `utils.CommaJoin`: join already-formatted names with ", ". -/
def commaJoin (names : List String) : String :=
  String.intercalate ", " names

/-- The sorted list of requested tags not currently present on the target,
as computed by `LUTagsDel.CheckPrereq` from
`frozenset(self.op.tags) - cur_tags` followed by `sorted(...)`: set
difference (duplicates collapsed) in ascending order. -/
def missingTags (tags cur : List String) : List String :=
  ((tags.filter (fun t => ¬ cur.contains t)).dedup).mergeSort
    (fun a b => a ≤ b)

/-- The message of the prerequisite error raised by `LUTagsDel.CheckPrereq`:
`"Tag(s) %s not found"` over the quoted, sorted missing tags. -/
def delNotFoundMsg (tags cur : List String) : String :=
  "Tag(s) " ++
    commaJoin ((missingTags tags cur).map (fun i => "'" ++ i ++ "'")) ++
    " not found"

/-- Outcome of running one tag logical unit: the returned value, the
configuration after the run, and whether `self.cfg.Update` was called. -/
structure TagsLUOutcome (α : Type) where
  value : α
  cfg : ConfigData
  updateCalled : Bool

/-- `LUTagsGet`: `CheckPrereq` selects the target, `Exec` returns
`list(self.target.GetTags())`; nothing is written and `cfg.Update` is
never called. -/
def luTagsGet (cfg : ConfigData) (kind : TagKind) (name : String) :
    Except GanetiError (TagsLUOutcome (List String)) :=
  match getTargetTags cfg kind name with
  | .error e => .error e
  | .ok cur => .ok { value := cur, cfg := cfg, updateCalled := false }

/-- `LUTagsSearch.Exec`: collect `(path, tag)` pairs over the cluster
object, all instances, all nodes and all node groups, keeping the tags
matched by the compiled search pattern (the `re.search` matcher is
modelled as a boolean predicate). -/
def luTagsSearch (cfg : ConfigData) (pattern : String → Bool) :
    List (String × String) :=
  let tgts :=
    [("/cluster", cfg.clusterTags)] ++
      cfg.instances.map (fun i => ("/instances/" ++ i.1, i.2)) ++
      cfg.nodes.map (fun n => ("/nodes/" ++ n.1, n.2)) ++
      cfg.nodegroups.map (fun n => ("/nodegroup/" ++ n.1, n.2))
  tgts.flatMap
    (fun pt => (pt.2.filter pattern).map (fun tag => (pt.1, tag)))

/-- `objects.TaggableObject.AddTag` over a tag set: adding an already
present tag leaves the set unchanged. -/
def addTag (cur : List String) (tag : String) : List String :=
  if cur.contains tag then cur else cur ++ [tag]

/-- `LUTagsSet`: validate every tag, then `Exec` adds each tag to the target
and persists through `cfg.Update`. -/
def luTagsSet (validTag : String → Bool) (cfg : ConfigData) (kind : TagKind)
    (name : String) (tags : List String) :
    Except GanetiError (TagsLUOutcome Unit) :=
  match getTargetTags cfg kind name with
  | .error e => .error e
  | .ok cur =>
    if tags.all validTag then
      let newTags := tags.foldl addTag cur
      .ok { value := (), cfg := setTargetTags cfg kind name newTags,
            updateCalled := true }
    else
      .error (.tagError "Invalid tag name")

/-- `LUTagsDel`: `CheckPrereq` validates every tag and fails with a
prerequisite not-found error naming all missing tags when any requested
tag is not currently present; only then does `Exec` remove the tags and
persist through `cfg.Update`. -/
def luTagsDel (validTag : String → Bool) (cfg : ConfigData) (kind : TagKind)
    (name : String) (tags : List String) :
    Except GanetiError (TagsLUOutcome Unit) :=
  match getTargetTags cfg kind name with
  | .error e => .error e
  | .ok cur =>
    if tags.all validTag then
      if (missingTags tags cur).isEmpty then
        let newTags := cur.filter (fun t => ¬ tags.contains t)
        .ok { value := (), cfg := setTargetTags cfg kind name newTags,
              updateCalled := true }
      else
        .error (.opPrereqError (delNotFoundMsg tags cur) (some ECODE_NOENT))
    else
      .error (.tagError "Invalid tag name")

/-! ## Theorems -/

/-- C1: for every dispatch through the RPC Processor whose resolver returns
one triple per input node id (the resolver contract), the returned result
map has exactly one entry per input node identifier: its key list equals
the input node-id list, so the key set equals the input node-id set with
no duplicates, no omissions and no extra keys, regardless of how each
node fares. -/
theorem rpcProcess_keys_eq_nodeIds
    (resolver : List String → List ResolvedAddress) (port : Nat)
    (nodeIds : List String) (call : String) (body : String → String)
    (timeout : Nat) (transport : HttpRequest → HttpResponse)
    (hres : (resolver nodeIds).map ResolvedAddress.id = nodeIds) :
    (rpcProcess resolver port nodeIds call body timeout transport).map
        Prod.fst = nodeIds ∧
    ∀ id, (∃ r, (id, r) ∈
        rpcProcess resolver port nodeIds call body timeout transport) ↔
      id ∈ nodeIds := by
  have hkeys : (rpcProcess resolver port nodeIds call body timeout
      transport).map Prod.fst = nodeIds := by
    simpa [rpcProcess, List.map_map, Function.comp] using hres
  refine ⟨hkeys, fun id => ?_⟩
  constructor
  · rintro ⟨r, hr⟩
    have : (id, r).1 ∈ (rpcProcess resolver port nodeIds call body timeout
        transport).map Prod.fst := List.mem_map_of_mem Prod.fst hr
    simpa [hkeys] using this
  · intro hid
    rw [← hkeys] at hid
    rcases List.mem_map.mp hid with ⟨p, hp, hfst⟩
    exact ⟨p.2, by simpa [← hfst] using hp⟩

/-- C1 witness: a concrete dispatch over two statically resolved nodes. -/
theorem rpcProcess_keys_eq_nodeIds_witness :
    ((staticResolver [some "127.0.0.1", some "192.0.2.13"])
        ["localhost", "node31856"]).map ResolvedAddress.id =
      ["localhost", "node31856"] ∧
    (rpcProcess (staticResolver [some "127.0.0.1", some "192.0.2.13"]) 24094
        ["localhost", "node31856"] "version" (fun _ => "") 60
        (fun _ => .success 200 (some (.arr [.bool true, .num 123])))).map
      Prod.fst = ["localhost", "node31856"] := by
  refine ⟨rfl, ?_⟩
  exact (rpcProcess_keys_eq_nodeIds
    (staticResolver [some "127.0.0.1", some "192.0.2.13"]) 24094
    ["localhost", "node31856"] "version" (fun _ => "") 60
    (fun _ => .success 200 (some (.arr [.bool true, .num 123]))) rfl).1

/-- C2: a node resolved to the OFFLINE sentinel produces a result with
`offline=true` and a non-empty `fail_msg`, the transport receives zero
requests for it, and that result is the node's entry in the dispatched
result map. -/
theorem dispatch_offline_no_request
    (resolver : List String → List ResolvedAddress) (port : Nat)
    (nodeIds : List String) (call : String) (body : String → String)
    (timeout : Nat) (transport : HttpRequest → HttpResponse)
    (ra : ResolvedAddress) (hmem : ra ∈ resolver nodeIds)
    (hoff : ra.address = none) :
    (dispatchOne port call body timeout transport ra).1.offline = true ∧
    (dispatchOne port call body timeout transport ra).1.failMsg ≠ "" ∧
    (dispatchOne port call body timeout transport ra).2 = [] ∧
    (ra.id, (dispatchOne port call body timeout transport ra).1) ∈
      rpcProcess resolver port nodeIds call body timeout transport := by
  refine ⟨?_, ?_, ?_, ?_⟩
  · simp [dispatchOne, hoff]
  · simp [dispatchOne, hoff, offlineNodeMsg]
  · simp [dispatchOne, hoff]
  · exact List.mem_map_of_mem
      (fun x => (x.id, (dispatchOne port call body timeout transport x).1))
      hmem

/-- C2 witness: the offline-node scenario of the unit tests, on a static
resolver holding only the OFFLINE sentinel. -/
theorem dispatch_offline_no_request_witness :
    (⟨"n17296", none, "n17296"⟩ : ResolvedAddress) ∈
      staticResolver [none] ["n17296"] ∧
    (dispatchOne 30668 "version" (fun _ => "") 60
      (fun _ => .failure "transport must not be called")
      ⟨"n17296", none, "n17296"⟩).2 = [] := by
  refine ⟨by simp [staticResolver], ?_⟩
  exact (dispatch_offline_no_request (staticResolver [none]) 30668
    ["n17296"] "version" (fun _ => "") 60
    (fun _ => .failure "transport must not be called")
    ⟨"n17296", none, "n17296"⟩ (by simp [staticResolver]) rfl).2.2.1

/-- C4: `Raise` never raises when `fail_msg` is empty (and, being a pure
function of the result, does so however often it is called); with a
non-empty `fail_msg` it raises a prerequisite-style error carrying
`ecode` when `prereq` is true, and otherwise an execution-style error
whose message combines the caller's message with the `fail_msg`. -/
theorem raise_classification (r : PerNodeResult) (message : Option String)
    (prereq : Bool) (ecode : Option String) :
    (r.failMsg = "" → r.Raise message prereq ecode = none) ∧
    (r.failMsg ≠ "" → prereq = true →
      r.Raise message prereq ecode =
        some (.opPrereqError (raiseMsg message r.failMsg) ecode)) ∧
    (r.failMsg ≠ "" → prereq = false →
      r.Raise message prereq ecode =
        some (.opExecError (raiseMsg message r.failMsg))) := by
  refine ⟨fun h => ?_, fun h hp => ?_, fun h hp => ?_⟩
  · simp [PerNodeResult.Raise, h]
  · simp [PerNodeResult.Raise, h, hp]
  · simp [PerNodeResult.Raise, h, hp]

/-- C4 witness: a successful result never raises however often `Raise` is
applied, and an offline-style failed result raises both error styles. -/
theorem raise_classification_witness :
    (({ node := "localhost", call := "version", offline := false,
        failMsg := "", payload := .num 123 } : PerNodeResult).Raise
      (some "should not raise") false none = none) ∧
    (({ node := "n17296", call := "version", offline := true,
        failMsg := offlineNodeMsg, payload := .null } : PerNodeResult).Raise
      (some "failed") true (some ECODE_INVAL) =
      some (.opPrereqError (raiseMsg (some "failed") offlineNodeMsg)
        (some ECODE_INVAL))) := by
  constructor
  · exact (raise_classification
      { node := "localhost", call := "version", offline := false,
        failMsg := "", payload := .num 123 }
      (some "should not raise") false none).1 rfl
  · exact (raise_classification
      { node := "n17296", call := "version", offline := true,
        failMsg := offlineNodeMsg, payload := .null }
      (some "failed") true (some ECODE_INVAL)).2.1 (by decide) rfl

/-- C7: a transport response whose body fails to decode, or decodes to
anything other than the required two-element `(ok, value)` envelope, is
classified as a protocol failure carrying the fixed invalid-response
message and an empty payload — never coerced into a success. -/
theorem invalid_envelope_classified (name call : String) (status : Nat)
    (body : Option WireValue) (h2xx : 200 ≤ status ∧ status < 300)
    (hshape : validEnvelope body = false) :
    (classifyResponse name call (.success status body)).failMsg =
      invalidResponseMsg ∧
    (classifyResponse name call (.success status body)).payload = .null ∧
    (classifyResponse name call (.success status body)).failMsg ≠ "" := by
  have hcls : classifyResponse name call (.success status body) =
      { node := name, call := call, offline := false,
        failMsg := invalidResponseMsg, payload := .null } := by
    simp only [classifyResponse, if_pos h2xx]
    split
    · simp [validEnvelope] at hshape
    · simp [validEnvelope] at hshape
    · rfl
  refine ⟨by rw [hcls], by rw [hcls], by rw [hcls]; simp [invalidResponseMsg]⟩

/-- C7 witness: the decodable-but-misshapen body of the unit tests (a plain
string instead of the envelope) is classified with the fixed message and
an empty payload. -/
theorem invalid_envelope_classified_witness :
    (200 ≤ 200 ∧ 200 < 300) ∧
    validEnvelope (some (.str "invalid response")) = false ∧
    (classifyResponse "oqo7lanhly.example.com" "version"
      (.success 200 (some (.str "invalid response")))).failMsg =
      invalidResponseMsg := by
  refine ⟨by omega, rfl, ?_⟩
  exact (invalid_envelope_classified "oqo7lanhly.example.com" "version" 200
    (some (.str "invalid response")) (by omega) rfl).1

/-- Decoding inverts the alphabet lookup on every six-bit group value. -/
theorem b64Value_b64Byte : ∀ s, s < 64 → b64Value (b64Byte s) = some s := by
  decide

/-- No alphabet byte collides with the padding byte. -/
theorem b64Byte_ne_pad : ∀ s, s < 64 → b64Byte s ≠ b64Pad := by
  decide

/-- Base64 decoding inverts base64 encoding on byte sequences. -/
theorem b64decode_b64encode (xs : List Nat) (h : ∀ x ∈ xs, x < 256) :
    b64decode (b64encode xs) = some xs := by
  induction xs using b64encode.induct with
  | case1 => rfl
  | case2 a =>
    have ha : a < 256 := h a (by simp)
    have e0 : b64Value (b64Byte (a / 4)) = some (a / 4) :=
      b64Value_b64Byte _ (by omega)
    have e1 : b64Value (b64Byte (a % 4 * 16)) = some (a % 4 * 16) :=
      b64Value_b64Byte _ (by omega)
    simp [b64encode, b64decode, e0, e1]
    omega
  | case3 a b =>
    have ha : a < 256 := h a (by simp)
    have hb : b < 256 := h b (by simp)
    have e0 : b64Value (b64Byte (a / 4)) = some (a / 4) :=
      b64Value_b64Byte _ (by omega)
    have e1 : b64Value (b64Byte (a % 4 * 16 + b / 16)) =
        some (a % 4 * 16 + b / 16) := b64Value_b64Byte _ (by omega)
    have e2 : b64Value (b64Byte (b % 16 * 4)) = some (b % 16 * 4) :=
      b64Value_b64Byte _ (by omega)
    have n2 : (b64Byte (b % 16 * 4) = b64Pad) = False :=
      eq_false (b64Byte_ne_pad _ (by omega))
    simp [b64encode, b64decode, e0, e1, e2, n2]
    omega
  | case4 a b c rest ih =>
    have ha : a < 256 := h a (by simp)
    have hb : b < 256 := h b (by simp)
    have hc : c < 256 := h c (by simp)
    have e0 : b64Value (b64Byte (a / 4)) = some (a / 4) :=
      b64Value_b64Byte _ (by omega)
    have e1 : b64Value (b64Byte (a % 4 * 16 + b / 16)) =
        some (a % 4 * 16 + b / 16) := b64Value_b64Byte _ (by omega)
    have e2 : b64Value (b64Byte (b % 16 * 4 + c / 64)) =
        some (b % 16 * 4 + c / 64) := b64Value_b64Byte _ (by omega)
    have e3 : b64Value (b64Byte (c % 64)) = some (c % 64) :=
      b64Value_b64Byte _ (by omega)
    have n2 : (b64Byte (b % 16 * 4 + c / 64) = b64Pad) = False :=
      eq_false (b64Byte_ne_pad _ (by omega))
    have n3 : (b64Byte (c % 64) = b64Pad) = False :=
      eq_false (b64Byte_ne_pad _ (by omega))
    have ihx : b64decode (b64encode rest) = some rest :=
      ih (fun x hx => h x (by simp [hx]))
    simp [b64encode, b64decode, e0, e1, e2, e3, n2, n3, ihx]
    omega

/-- C3: decompressing the compressed form of any byte payload returns the
payload exactly, on either side of the size threshold; below the
threshold the compressed form is the pair of the no-encoding marker and
the unmodified payload. -/
theorem decompress_compress (data : List Nat) (h : ∀ b ∈ data, b < 256) :
    rpcDecompress (rpcCompress data) = .ok data ∧
    (data.length < compressionThreshold →
      rpcCompress data = (RPC_ENCODING_NONE, data)) := by
  by_cases hlen : data.length < compressionThreshold
  · refine ⟨?_, fun _ => ?_⟩ <;>
      simp [rpcCompress, rpcDecompress, hlen]
  · refine ⟨?_, fun hcon => absurd hcon hlen⟩
    have hrt := b64decode_b64encode data h
    simp [rpcCompress, rpcDecompress, hlen, zlibCompress, zlibDecompress,
      RPC_ENCODING_NONE, RPC_ENCODING_ZLIB_BASE64, hrt]

/-- C3 witness: a small payload passes through unmodified and round-trips. -/
theorem decompress_compress_witness :
    (∀ b ∈ [72, 101, 108, 108, 111], b < 256) ∧
    rpcDecompress (rpcCompress [72, 101, 108, 108, 111]) =
      .ok [72, 101, 108, 108, 111] ∧
    rpcCompress [72, 101, 108, 108, 111] =
      (RPC_ENCODING_NONE, [72, 101, 108, 108, 111]) := by
  have hd := decompress_compress [72, 101, 108, 108, 111] (by decide)
  exact ⟨by decide, hd.1, hd.2 (by decide)⟩

/-- C5 counterexample: with `has_lvm=false` and an input holding only the
LVM physical-volume entry of the unit tests, the merger sets no default
at all, so the first encountered entry does not supply the default
`storage_free`/`storage_size` of the merged record (pinned by
`testAddDefaultStorageInfoToLegacyNodeInfoNoDefaults`). -/
theorem first_entry_default_counterexample :
    addDefaultStorageInfo ⟨none, none, none⟩
      [⟨"mynode", ST_LVM_PV, 33, 44⟩] false = .ok ⟨none, none, none⟩ ∧
    (⟨none, none, none⟩ : LegacyNodeInfo) ≠
      ⟨some "mynode", some 33, some 44⟩ := by
  exact ⟨rfl, by decide⟩

/-- C5 (amended): when `has_lvm` is true, the first LVM volume-group entry's
`storage_free` and `storage_size` override any previously set default
values; when `has_lvm` is false, the first encountered entry supplies the
default, unless the input is empty or consists solely of a single LVM
physical-volume entry, in which case no default is set. -/
theorem merger_default_rule (result : LegacyNodeInfo)
    (spaceInfo : List StorageUnit) :
    (∀ v, (spaceInfo.filter (fun s => s.stype = ST_LVM_VG)).head? = some v →
      addDefaultStorageInfo result spaceInfo true =
        .ok ⟨some v.name, some v.storageFree, some v.storageSize⟩) ∧
    (∀ e rest, spaceInfo = e :: rest →
      ¬ (e.stype = ST_LVM_PV ∧ rest = []) →
      addDefaultStorageInfo result spaceInfo false =
        .ok ⟨some e.name, some e.storageFree, some e.storageSize⟩) := by
  constructor
  · intro v hv
    rcases hfil : spaceInfo.filter (fun s => s.stype = ST_LVM_VG) with
      _ | ⟨w, ws⟩
    · rw [hfil] at hv
      simp at hv
    · rw [hfil] at hv
      simp only [List.head?_cons, Option.some.injEq] at hv
      subst hv
      simp [addDefaultStorageInfo, hfil]
  · rintro e rest rfl hne
    simp [addDefaultStorageInfo, hne]

/-- C5 witness: the merger on the unit tests' three-entry storage report:
with LVM the volume-group values 69/666 win over the file-backed entry,
without LVM the first (file-backed) entry's 23/42 become the default. -/
theorem merger_default_rule_witness :
    addDefaultStorageInfo ⟨none, none, none⟩
      [⟨"mynode", ST_FILE, 23, 42⟩, ⟨"mynode", ST_LVM_VG, 69, 666⟩,
       ⟨"mynode", ST_LVM_PV, 33, 44⟩] true =
      .ok ⟨some "mynode", some 69, some 666⟩ ∧
    addDefaultStorageInfo ⟨none, none, none⟩
      [⟨"mynode", ST_FILE, 23, 42⟩, ⟨"mynode", ST_LVM_VG, 69, 666⟩,
       ⟨"mynode", ST_LVM_PV, 33, 44⟩] false =
      .ok ⟨some "mynode", some 23, some 42⟩ := by
  constructor
  · exact (merger_default_rule ⟨none, none, none⟩
      [⟨"mynode", ST_FILE, 23, 42⟩, ⟨"mynode", ST_LVM_VG, 69, 666⟩,
       ⟨"mynode", ST_LVM_PV, 33, 44⟩]).1 ⟨"mynode", ST_LVM_VG, 69, 666⟩
      (by decide)
  · exact (merger_default_rule ⟨none, none, none⟩
      [⟨"mynode", ST_FILE, 23, 42⟩, ⟨"mynode", ST_LVM_VG, 69, 666⟩,
       ⟨"mynode", ST_LVM_PV, 33, 44⟩]).2 ⟨"mynode", ST_FILE, 23, 42⟩ _
      rfl (by decide)

/-- C6: whenever `has_lvm` is true but no LVM volume-group entry is present
in the input, the merger fails with a hard error instead of returning a
silently-defaulted merged record. -/
theorem merger_missing_vg_fails (result : LegacyNodeInfo)
    (spaceInfo : List StorageUnit)
    (h : ∀ s ∈ spaceInfo, s.stype ≠ ST_LVM_VG) :
    addDefaultStorageInfo result spaceInfo true =
      .error (.opExecError "LVM storage info requested, but not available.") := by
  have hfil : spaceInfo.filter (fun s => s.stype = ST_LVM_VG) = [] := by
    rw [List.filter_eq_nil_iff]
    intro s hs
    simpa using h s hs
  simp [addDefaultStorageInfo, hfil]

/-- C6 witness: the unit tests' scenario with only the physical-volume entry
present and `has_lvm=true` fails hard. -/
theorem merger_missing_vg_fails_witness :
    (∀ s ∈ [(⟨"mynode", ST_LVM_PV, 33, 44⟩ : StorageUnit)],
      s.stype ≠ ST_LVM_VG) ∧
    addDefaultStorageInfo ⟨none, none, none⟩
      [⟨"mynode", ST_LVM_PV, 33, 44⟩] true =
      .error (.opExecError "LVM storage info requested, but not available.") := by
  refine ⟨by decide, ?_⟩
  exact merger_missing_vg_fails ⟨none, none, none⟩
    [⟨"mynode", ST_LVM_PV, 33, 44⟩] (by decide)

/-- C8: when any requested tag is missing from the target, the tag-delete
logical unit fails during the prerequisite check with a not-found
prerequisite error whose message names all missing tags, and no updated
configuration is ever produced (no tag removed, `cfg.Update` not
called). -/
theorem tags_del_missing_fails (validTag : String → Bool) (cfg : ConfigData)
    (kind : TagKind) (name : String) (tags cur : List String)
    (hcur : getTargetTags cfg kind name = .ok cur)
    (hvalid : tags.all validTag = true)
    (hmiss : ∃ t ∈ tags, ¬ cur.contains t) :
    luTagsDel validTag cfg kind name tags =
      .error (.opPrereqError (delNotFoundMsg tags cur) (some ECODE_NOENT)) ∧
    (∀ t ∈ tags, ¬ cur.contains t → t ∈ missingTags tags cur) ∧
    (∀ out, luTagsDel validTag cfg kind name tags ≠ .ok out) := by
  have hmem : ∀ t ∈ tags, ¬ cur.contains t → t ∈ missingTags tags cur := by
    intro t ht hnc
    have h1 : t ∈ (tags.filter (fun t => ¬ cur.contains t)).dedup := by
      rw [List.mem_dedup, List.mem_filter]
      exact ⟨ht, by simpa using hnc⟩
    unfold missingTags
    exact ((List.mergeSort_perm _ (fun a b => a ≤ b)).mem_iff).mpr h1
  have hne : ¬ (missingTags tags cur).isEmpty = true := by
    rcases hmiss with ⟨t, ht, hnc⟩
    have := hmem t ht hnc
    intro hemp
    rw [List.isEmpty_iff] at hemp
    rw [hemp] at this
    exact (List.not_mem_nil t) this
  have hres : luTagsDel validTag cfg kind name tags =
      .error (.opPrereqError (delNotFoundMsg tags cur) (some ECODE_NOENT)) := by
    unfold luTagsDel
    rw [hcur]
    simp [hvalid, hne]
  refine ⟨hres, hmem, fun out hcon => ?_⟩
  rw [hres] at hcon
  exact Except.noConfusion hcon

/-- C8 witness: deleting tag "bar" from a cluster whose only tag is "foo"
fails with the not-found prerequisite error naming "bar". -/
theorem tags_del_missing_fails_witness :
    getTargetTags ⟨["foo"], [], [], [], []⟩ .cluster "" = .ok ["foo"] ∧
    luTagsDel (fun _ => true) ⟨["foo"], [], [], [], []⟩ .cluster ""
      ["bar"] =
      .error (.opPrereqError (delNotFoundMsg ["bar"] ["foo"])
        (some ECODE_NOENT)) := by
  refine ⟨rfl, ?_⟩
  exact (tags_del_missing_fails (fun _ => true) ⟨["foo"], [], [], [], []⟩
    .cluster "" ["bar"] ["foo"] rfl rfl
    ⟨"bar", by decide, by decide⟩).1

/-- C9: the tag search examines only the cluster object, the instances, the
nodes and the node groups — its result is unchanged under arbitrary
replacement of the network objects, so network tags never appear in
search results — even though the network kind is accepted by the
get operation (and hence by the shared prerequisite check of get, set
and delete). -/
theorem tags_search_ignores_networks (cfg : ConfigData)
    (pattern : String → Bool) (nets : List (String × List String)) :
    luTagsSearch { cfg with networks := nets } pattern =
      luTagsSearch cfg pattern ∧
    (∀ name tags, lookupTags cfg.networks name = some tags →
      luTagsGet cfg .network name =
        .ok { value := tags, cfg := cfg, updateCalled := false }) := by
  constructor
  · rfl
  · intro name tags hlk
    unfold luTagsGet getTargetTags
    rw [hlk]

/-- C9 witness: a configuration whose only tag sits on a network: the tag is
reachable through get on the network kind, yet an all-accepting search
returns nothing. -/
theorem tags_search_ignores_networks_witness :
    lookupTags ([("net1", ["nettag"])] :
        List (String × List String)) "net1" = some ["nettag"] ∧
    luTagsGet ⟨[], [], [], [], [("net1", ["nettag"])]⟩ .network "net1" =
      .ok { value := ["nettag"], cfg := ⟨[], [], [], [], [("net1", ["nettag"])]⟩,
            updateCalled := false } ∧
    luTagsSearch ⟨[], [], [], [], [("net1", ["nettag"])]⟩ (fun _ => true) =
      [] := by
  refine ⟨rfl, ?_, rfl⟩
  exact (tags_search_ignores_networks ⟨[], [], [], [], [("net1", ["nettag"])]⟩
    (fun _ => true) []).2 "net1" ["nettag"] rfl

/-- C10: the tag-get logical unit never modifies the configuration: whenever
it succeeds, the configuration it returns is the input configuration,
`cfg.Update` was never called, and the returned value is exactly the
target object's tag list. -/
theorem tags_get_pure (cfg : ConfigData) (kind : TagKind) (name : String)
    (out : TagsLUOutcome (List String))
    (h : luTagsGet cfg kind name = .ok out) :
    out.cfg = cfg ∧ out.updateCalled = false ∧
    getTargetTags cfg kind name = .ok out.value := by
  unfold luTagsGet at h
  rcases htgt : getTargetTags cfg kind name with e | cur
  · rw [htgt] at h
    exact Except.noConfusion h
  · rw [htgt] at h
    have hout : ({ value := cur, cfg := cfg, updateCalled := false } :
        TagsLUOutcome (List String)) = out := by
      exact Except.ok.inj h
    subst hout
    exact ⟨rfl, rfl, rfl⟩

/-- C10 witness: get on a node with two tags returns them and leaves the
configuration untouched. -/
theorem tags_get_pure_witness :
    luTagsGet ⟨[], [("node1", ["a", "b"])], [], [], []⟩ .node "node1" =
      .ok { value := ["a", "b"],
            cfg := ⟨[], [("node1", ["a", "b"])], [], [], []⟩,
            updateCalled := false } ∧
    (⟨[], [("node1", ["a", "b"])], [], [], []⟩ : ConfigData) =
      ⟨[], [("node1", ["a", "b"])], [], [], []⟩ ∧
    ({ value := ["a", "b"],
       cfg := ⟨[], [("node1", ["a", "b"])], [], [], []⟩,
       updateCalled := false } : TagsLUOutcome (List String)).updateCalled
      = false := by
  refine ⟨rfl, rfl, ?_⟩
  exact (tags_get_pure ⟨[], [("node1", ["a", "b"])], [], [], []⟩ .node "node1"
    { value := ["a", "b"], cfg := ⟨[], [("node1", ["a", "b"])], [], [], []⟩,
      updateCalled := false } rfl).2.1

end Ganeti
